import Mathlib

/-!
# Verification of the tank-arena movement/collision engine

Shallow embedding of the repository's core (`entities.py`, `graphics.py`,
`game.py`) and proofs about the spec's claims.

Modelling conventions:
* Python/pygame floats are modelled as exact rationals (`ℚ`).
* `pygame.Rect` stores integer `left/top/width/height`; `centerx` is
  `left + w / 2` with integer division (all widths in the game are
  positive and even, where C truncation, Python floor division and
  Lean's integer division agree).
* Python's builtin `round` (round-half-to-even) is `pyround`.
* `math.sqrt`/`** 0.5` appears only in the tank-to-tank push-apart and is
  modelled by the integer square root of the integer radicand, which
  agrees with the exact square root whenever the radicand is a perfect
  square; no theorem below depends on its value elsewhere (the push
  magnitudes it scales are only ever used under that exactness, or not
  used at all on the evaluated paths).
-/

/-- Python's builtin `round`: nearest integer, ties to even. -/
def pyround (q : ℚ) : ℤ :=
  if q - ⌊q⌋ < 1/2 then ⌊q⌋
  else if (1 : ℚ)/2 < q - ⌊q⌋ then ⌊q⌋ + 1
  else if ⌊q⌋ % 2 = 0 then ⌊q⌋ else ⌊q⌋ + 1

/-- `pygame.Rect`: integer rectangle given by left/top corner and size. -/
structure Rect where
  left : ℤ
  top : ℤ
  w : ℤ
  h : ℤ
deriving DecidableEq

def Rect.right (r : Rect) : ℤ := r.left + r.w

def Rect.bottom (r : Rect) : ℤ := r.top + r.h

def Rect.centerx (r : Rect) : ℤ := r.left + r.w / 2

def Rect.centery (r : Rect) : ℤ := r.top + r.h / 2

/-- `rect.center = (cx, cy)` assignment: moves the rect, keeps its size. -/
def Rect.setCenter (r : Rect) (cx cy : ℤ) : Rect :=
  { r with left := cx - r.w / 2, top := cy - r.h / 2 }

/-- `rect.centerx = cx` assignment. -/
def Rect.setCenterx (r : Rect) (cx : ℤ) : Rect :=
  { r with left := cx - r.w / 2 }

/-- `rect.centery = cy` assignment. -/
def Rect.setCentery (r : Rect) (cy : ℤ) : Rect :=
  { r with top := cy - r.h / 2 }

/-- `rect.left = v` assignment. -/
def Rect.setLeft (r : Rect) (v : ℤ) : Rect := { r with left := v }

/-- `rect.right = v` assignment (pygame moves the rect: `left = v - w`). -/
def Rect.setRight (r : Rect) (v : ℤ) : Rect := { r with left := v - r.w }

/-- `rect.top = v` assignment. -/
def Rect.setTop (r : Rect) (v : ℤ) : Rect := { r with top := v }

/-- `rect.bottom = v` assignment (pygame: `top = v - h`). -/
def Rect.setBottom (r : Rect) (v : ℤ) : Rect := { r with top := v - r.h }

/-- `pygame.Rect.colliderect`: true iff the rectangles overlap with
positive area (touching edges do not collide). -/
def Rect.colliderect (a b : Rect) : Bool :=
  decide (a.left < b.right) && decide (b.left < a.right) &&
    decide (a.top < b.bottom) && decide (b.top < a.bottom)

/-- `pygame.Rect.contains`: `b` lies completely inside `a`. -/
def Rect.containsR (a b : Rect) : Bool :=
  decide (a.left ≤ b.left) && decide (a.top ≤ b.top) &&
    decide (b.right ≤ a.right) && decide (b.bottom ≤ a.bottom) &&
    decide (a.left < b.right) && decide (a.top < b.bottom)

/-- `pygame.Rect.clamp_ip(b)`: move `a` so that it lies inside `b`
(centered on an axis where `a` is at least as large as `b`). -/
def Rect.clampTo (a b : Rect) : Rect :=
  let L :=
    if b.w ≤ a.w then b.left + b.w / 2 - a.w / 2
    else if a.left < b.left then b.left
    else if b.right < a.right then b.right - a.w
    else a.left
  let T :=
    if b.h ≤ a.h then b.top + b.h / 2 - a.h / 2
    else if a.top < b.top then b.top
    else if b.bottom < a.bottom then b.bottom - a.h
    else a.top
  { a with left := L, top := T }

/- ### config.py constants -/

def DEFAULT_TANK_HEALTH : ℤ := 4

def DEFAULT_TANK_RELOAD_MS : ℤ := 450

def BULLET_SPEED : ℚ := 360

def COLLISION_PUSH_DISTANCE : ℚ := 2

def TANK_COLLISION_THRESHOLD : ℤ := 35

def OBSTACLE_SAFE_RADIUS : ℤ := 80

def OBSTACLE_MIN_DISTANCE : ℤ := 100

/- ### graphics.py -/

/-- `graphics.orientation_from_vector`: closest cardinal orientation of a
direction vector (the spec's `facing_of`). -/
def orientation_from_vector (x y : ℚ) : String :=
  if x ^ 2 + y ^ 2 = 0 then "up"
  else if |y| < |x| then (if 0 < x then "right" else "left")
  else if 0 < y then "down" else "up"

/- ### entities.py -/

/-- Square root of a nonnegative rational, exact when numerator and
denominator are perfect squares.  Models the float square root used by
`Vector2.normalize`; every concrete run below stays in the exact case. -/
def ratSqrt (q : ℚ) : ℚ := (q.num.toNat.sqrt : ℚ) / (q.den.sqrt : ℚ)

/-- `pygame.Vector2.normalize`. -/
def vecNormalize (x y : ℚ) : ℚ × ℚ :=
  let n := ratSqrt (x ^ 2 + y ^ 2)
  (x / n, y / n)

/-- `entities.Bullet` state: authoritative float position, unit direction,
speed, AABB, and the arena rectangle.  The sprite images and the owner
back-reference carry no dynamics and are omitted. -/
structure Bullet where
  posx : ℚ
  posy : ℚ
  dirx : ℚ
  diry : ℚ
  speed : ℚ
  rect : Rect
  playfield : Rect
  orientation : String

/-- `Bullet.__init__`: a degenerate direction is replaced by `(0, -1)`,
otherwise the direction is normalized; the AABB is the image rectangle
(size `bw × bh`) centered at the spawn position, and the authoritative
position is re-read from the AABB center. -/
def Bullet.init (bw bh : ℤ) (cx cy : ℤ) (dx dy : ℚ) (speed : ℚ)
    (playfield : Rect) : Bullet :=
  let d := if dx ^ 2 + dy ^ 2 = 0 then ((0 : ℚ), (-1 : ℚ)) else vecNormalize dx dy
  let r := (Rect.mk 0 0 bw bh).setCenter cx cy
  { posx := (r.centerx : ℚ), posy := (r.centery : ℚ),
    dirx := d.1, diry := d.2, speed := speed, rect := r,
    playfield := playfield, orientation := orientation_from_vector d.1 d.2 }

/-- `Bullet.update(dt)`: advance the position, resync the AABB, and report
whether the bullet was removed (`kill()`), which happens exactly when the
AABB no longer collides with the playfield. -/
def Bullet.update (b : Bullet) (dt : ℚ) : Bullet × Bool :=
  let px := b.posx + b.dirx * b.speed * dt
  let py := b.posy + b.diry * b.speed * dt
  let r := b.rect.setCenter (pyround px) (pyround py)
  (⟨px, py, b.dirx, b.diry, b.speed, r, b.playfield, b.orientation⟩,
    !(b.playfield.colliderect r))

/-- `entities.Tank` state.  The sprite images and the transient
`_move_vector` field carry no dynamics and are omitted; `last_shot` is
the source's `_last_shot`. -/
structure Tank where
  posx : ℚ
  posy : ℚ
  rect : Rect
  orientation : String
  speed : ℚ
  playfield : Rect
  health : ℤ
  reload_ms : ℤ
  last_shot : ℤ

/-- `Tank.__init__` with an image of size `w × h`: AABB centered at the
spawn point, position read back from the AABB center, `_last_shot = 0`. -/
def Tank.init (w h cx cy : ℤ) (speed : ℚ) (playfield : Rect)
    (health reload_ms : ℤ) : Tank :=
  let r := (Rect.mk 0 0 w h).setCenter cx cy
  { posx := (r.centerx : ℚ), posy := (r.centery : ℚ), rect := r,
    orientation := "up", speed := speed, playfield := playfield,
    health := health, reload_ms := reload_ms, last_shot := 0 }

/-- A blocker passed to `Tank.move`: the source distinguishes tanks from
obstacles by probing for `health`/`speed` attributes; only the blocker's
AABB is read.  The list models the blocker iterable with the mover itself
removed (the source skips `b is self`). -/
inductive Blocker where
  | tank (r : Rect)
  | obstacle (r : Rect)
deriving DecidableEq

def Blocker.rect : Blocker → Rect
  | .tank r => r
  | .obstacle r => r

/-- Lines 91–94: apply the full (diagonal) displacement to the
authoritative position and resync the AABB from the rounded position. -/
def Tank.applyDisplacement (t : Tank) (dx dy : ℚ) : Tank :=
  let px := t.posx + dx
  let py := t.posy + dy
  { t with posx := px, posy := py, rect := t.rect.setCenter (pyround px) (pyround py) }

/-- Lines 96–100: clamp the AABB into the playfield if it left it, and
resync the position from the clamped AABB center. -/
def Tank.clampPlayfield (t : Tank) : Tank :=
  if t.playfield.containsR t.rect then t
  else
    let r := t.rect.clampTo t.playfield
    { t with rect := r, posx := (r.centerx : ℚ), posy := (r.centery : ℚ) }

/-- Lines 112–130: tank-to-tank collision response (push-apart).
`distance > 0` is tested as positivity of the integer radicand. -/
def Tank.resolveTank (t : Tank) (br : Rect) : Tank :=
  let dX := t.rect.centerx - br.centerx
  let dY := t.rect.centery - br.centery
  if 0 < dX ^ 2 + dY ^ 2 then
    let dist : ℚ := ((dX ^ 2 + dY ^ 2).toNat.sqrt : ℚ)
    let push_x := (dX : ℚ) / dist * COLLISION_PUSH_DISTANCE
    let push_y := (dY : ℚ) / dist * COLLISION_PUSH_DISTANCE
    let t1 :=
      if |dX| < TANK_COLLISION_THRESHOLD ∧ |dY| < TANK_COLLISION_THRESHOLD then
        if |dY| < |dX| then { t with posx := t.posx + push_x }
        else { t with posy := t.posy + push_y }
      else t
    { t1 with rect := t1.rect.setCenter (pyround t1.posx) (pyround t1.posy) }
  else t

/-- Lines 131–165: tank-to-obstacle collision response (flush snap along
the axis of least penetration; half-sizes use float division). -/
def Tank.resolveObstacle (t : Tank) (br : Rect) : Tank :=
  let dX := t.rect.centerx - br.centerx
  let dY := t.rect.centery - br.centery
  let min_x : ℚ := (t.rect.w : ℚ) / 2 + (br.w : ℚ) / 2
  let min_y : ℚ := (t.rect.h : ℚ) / 2 + (br.h : ℚ) / 2
  let overlap_x : ℚ := |(dX : ℚ)| - min_x
  let overlap_y : ℚ := |(dY : ℚ)| - min_y
  if overlap_x < 0 ∨ overlap_y < 0 then
    if |overlap_x| < |overlap_y| then
      let r := if 0 < dX then t.rect.setLeft br.right else t.rect.setRight br.left
      { t with rect := r, posx := (r.centerx : ℚ) }
    else
      let r := if 0 < dY then t.rect.setTop br.bottom else t.rect.setBottom br.top
      { t with rect := r, posy := (r.centery : ℚ) }
  else t

/-- One iteration of the lines 104–165 loop, threading the
`collision_occurred` flag. -/
def Tank.resolveStep (st : Tank × Bool) (b : Blocker) : Tank × Bool :=
  if st.1.rect.colliderect b.rect then
    match b with
    | .tank br => (st.1.resolveTank br, true)
    | .obstacle br => (st.1.resolveObstacle br, true)
  else st

/-- Lines 102–165: the push-apart / flush-snap pass over all blockers. -/
def Tank.resolvePass (t : Tank) (blockers : List Blocker) : Tank × Bool :=
  blockers.foldl Tank.resolveStep (t, false)

/-- One iteration of the lines 182–191 inner scan: snap flush against a
colliding blocker (threading the `horizontal_collision` flag). -/
def Tank.slideStepX (dx : ℚ) (st : Tank × Bool) (b2 : Blocker) : Tank × Bool :=
  if st.1.rect.colliderect b2.rect then
    let r := if 0 < dx then st.1.rect.setRight b2.rect.left
             else st.1.rect.setLeft b2.rect.right
    ({ st.1 with rect := r, posx := (r.centerx : ℚ) }, true)
  else st

/-- Lines 180–191: the horizontal slide's inner scan; snaps flush against
each colliding blocker and reports whether any collision was found. -/
def Tank.slideInnerX (dx : ℚ) (blockers : List Blocker) (t : Tank) : Tank × Bool :=
  blockers.foldl (Tank.slideStepX dx) (t, false)

/-- One iteration of the lines 203–212 inner scan. -/
def Tank.slideStepY (dy : ℚ) (st : Tank × Bool) (b2 : Blocker) : Tank × Bool :=
  if st.1.rect.colliderect b2.rect then
    let r := if 0 < dy then st.1.rect.setBottom b2.rect.top
             else st.1.rect.setTop b2.rect.bottom
    ({ st.1 with rect := r, posy := (r.centery : ℚ) }, true)
  else st

/-- Lines 201–212: the vertical slide's inner scan. -/
def Tank.slideInnerY (dy : ℚ) (blockers : List Blocker) (t : Tank) : Tank × Bool :=
  blockers.foldl (Tank.slideStepY dy) (t, false)

/-- Lines 167–215: the slide fallback.  For each still-colliding blocker,
retry from the pre-move position along the dominant displacement axis
only; break out as soon as an axis-restricted attempt finds no
collision. -/
def Tank.slideLoop (ox oy dx dy : ℚ) (blockers : List Blocker) :
    List Blocker → Tank → Tank
  | [], t => t
  | b :: rest, t =>
    if t.rect.colliderect b.rect then
      if |dy| < |dx| then
        let t1 := { t with posx := ox + dx, posy := oy,
                           rect := t.rect.setCenterx (pyround (ox + dx)) }
        let st := Tank.slideInnerX dx blockers t1
        if st.2 then Tank.slideLoop ox oy dx dy blockers rest st.1 else st.1
      else
        let t1 := { t with posx := ox, posy := oy + dy,
                           rect := t.rect.setCentery (pyround (oy + dy)) }
        let st := Tank.slideInnerY dy blockers t1
        if st.2 then Tank.slideLoop ox oy dx dy blockers rest st.1 else st.1
    else Tank.slideLoop ox oy dx dy blockers rest t

/-- Lines 78–82: update the displayed orientation when the raw direction
is non-zero (`mv` is already the zero-or-normalized `_move_vector`, so
the test `length_squared() > 0` is taken on it). -/
def Tank.orient (t : Tank) (mv : ℚ × ℚ) : Tank :=
  if 0 < mv.1 ^ 2 + mv.2 ^ 2 then
    { t with orientation := orientation_from_vector mv.1 mv.2 }
  else t

/-- The state right after lines 91–100 of `move`: orientation update,
full displacement, playfield clamp. -/
def Tank.moveClamped (t : Tank) (mv : ℚ × ℚ) (dt : ℚ) : Tank :=
  ((t.orient mv).applyDisplacement (mv.1 * (t.orient mv).speed * dt)
    (mv.2 * (t.orient mv).speed * dt)).clampPlayfield

/-- The state (and `collision_occurred` flag) right after the push-apart
pass of `move` (lines 102–165). -/
def Tank.moveResolved (t : Tank) (mv : ℚ × ℚ) (dt : ℚ)
    (blockers : List Blocker) : Tank × Bool :=
  (t.moveClamped mv dt).resolvePass blockers

/-- `Tank.move` (lines 76–215), taken from the normalization step on:
`mv` plays the role of `self._move_vector`, i.e. the zero vector for no
movement intent and otherwise the normalized direction (the source's
lines 78–80 compute it by `Vector2.normalize`, which leaves ℚ for
directions of irrational length; quantifying over `mv` with
`mv = 0 ∨ ‖mv‖² = 1` covers exactly the values the source can produce). -/
def Tank.move (t : Tank) (mv : ℚ × ℚ) (dt : ℚ) (blockers : List Blocker) : Tank :=
  let t0 := t.orient mv
  let dx := mv.1 * t0.speed * dt
  let dy := mv.2 * t0.speed * dt
  if dx = 0 ∧ dy = 0 then t0
  else
    let pr := t.moveResolved mv dt blockers
    if pr.2 then Tank.slideLoop t0.posx t0.posy dx dy blockers blockers pr.1
    else pr.1

/-- `Tank.can_fire(now_ms)`. -/
def Tank.can_fire (t : Tank) (now_ms : ℤ) : Bool :=
  decide (t.reload_ms ≤ now_ms - t.last_shot)

/-- Lines 233–239: the orientation-to-unit-vector map used by `shoot`
(`orientation` always holds one of the four cardinal strings). -/
def directionMap (o : String) : ℚ × ℚ :=
  match o with
  | "up" => (0, -1)
  | "down" => (0, 1)
  | "left" => (-1, 0)
  | _ => (1, 0)

/-- `Tank.shoot` (lines 221–276): no-op unless reloaded; otherwise spawn a
bullet just outside the facing edge and reset `_last_shot`.
`bulletDims o` gives the width/height of the bullet image for
orientation `o` (20 × 20 in the game); the created bullet is returned
instead of being added to the sprite group. -/
def Tank.shoot (t : Tank) (bulletDims : String → ℤ × ℤ) (now_ms : ℤ)
    (bullet_speed : ℚ) : Tank × Option Bullet :=
  if !(t.can_fire now_ms) then (t, none)
  else
    let d := directionMap t.orientation
    let bw := (bulletDims t.orientation).1
    let bh := (bulletDims t.orientation).2
    let s : ℤ × ℤ :=
      if t.orientation = "up" then (t.rect.centerx, t.rect.top - bh / 2)
      else if t.orientation = "down" then (t.rect.centerx, t.rect.bottom + bh / 2)
      else if t.orientation = "left" then (t.rect.left - bw / 2, t.rect.centery)
      else (t.rect.right + bw / 2, t.rect.centery)
    let b := Bullet.init bw bh s.1 s.2 d.1 d.2 bullet_speed t.playfield
    ({ t with last_shot := now_ms }, some b)

/-- `Tank.take_hit`: decrement health, report destruction. -/
def Tank.take_hit (t : Tank) : Tank × Bool :=
  let t1 := { t with health := t.health - 1 }
  (t1, decide (t1.health ≤ 0))

/- ### game.py -/

/-- `entities.Obstacle`: a static AABB. -/
structure Obstacle where
  rect : Rect
deriving DecidableEq

/-- `Obstacle.__init__` with an image of size `w × h` centered at the
given position. -/
def Obstacle.init (w h cx cy : ℤ) : Obstacle :=
  ⟨(Rect.mk 0 0 w h).setCenter cx cy⟩

/-- Squared euclidean distance between two integer points.  The source
compares `math.sqrt d < r`; for an integer radicand and nonnegative `r`
this is equivalent to `d < r ^ 2`, which is how every distance test below
is modelled. -/
def distSq (p q : ℤ × ℤ) : ℤ := (p.1 - q.1) ^ 2 + (p.2 - q.2) ^ 2

/-- `game.is_position_clear`: the candidate position must be at least
`safe_radius` away from both spawn points and a 32 × 32 probe rectangle
centered there must not collide with any existing obstacle. -/
def is_position_clear (position : ℤ × ℤ) (obstacles : List Obstacle)
    (player_pos enemy_pos : ℤ × ℤ) (safe_radius : ℤ) : Bool :=
  if distSq position player_pos < safe_radius ^ 2 then false
  else if distSq position enemy_pos < safe_radius ^ 2 then false
  else
    let temp := Obstacle.init 32 32 position.1 position.2
    !(obstacles.any fun o => temp.rect.colliderect o.rect)

/-- The `too_close` scan of `game.generate_random_obstacles` (lines
75–85): the candidate collides with, or is centered less than
`OBSTACLE_MIN_DISTANCE` from, some existing obstacle. -/
def tooClose (temp : Obstacle) (x y : ℤ) (obstacles : List Obstacle) : Bool :=
  obstacles.any fun ex =>
    temp.rect.colliderect ex.rect ||
      decide (distSq (x, y) (ex.rect.centerx, ex.rect.centery) <
        OBSTACLE_MIN_DISTANCE ^ 2)

/-- The rejection-sampling loop of `game.generate_random_obstacles`
(lines 63–91).  `draws` models the stream of `random.randint` pairs, one
consumed per attempt; newly accepted obstacles are consed onto the
accumulator (the properties proved below are order-independent). -/
def generateObstaclesAux (ow oh : ℤ) (player_pos enemy_pos : ℤ × ℤ)
    (num_obstacles max_attempts : ℕ) :
    List (ℤ × ℤ) → ℕ → List Obstacle → List Obstacle
  | [], _, obstacles => obstacles
  | (x, y) :: rest, attempts, obstacles =>
    if obstacles.length < num_obstacles ∧ attempts < max_attempts then
      let temp := Obstacle.init ow oh x y
      let obstacles1 :=
        if !(tooClose temp x y obstacles) &&
            is_position_clear (x, y) obstacles player_pos enemy_pos
              OBSTACLE_SAFE_RADIUS then
          temp :: obstacles
        else obstacles
      generateObstaclesAux ow oh player_pos enemy_pos num_obstacles
        max_attempts rest (attempts + 1) obstacles1
    else obstacles

/-- `game.generate_random_obstacles` for an obstacle image of size
`ow × oh` (100 × 32 in the game), with an attempt budget of 1000.  The
playfield only bounds the random draws and is not otherwise read, so it
is represented by the `draws` stream itself. -/
def generate_random_obstacles (ow oh : ℤ) (player_pos enemy_pos : ℤ × ℤ)
    (num_obstacles : ℕ) (draws : List (ℤ × ℤ)) : List Obstacle :=
  generateObstaclesAux ow oh player_pos enemy_pos num_obstacles 1000 draws 0 []

/-- Pairwise AABB-disjointness of a list of obstacles. -/
def pairwiseClear : List Obstacle → Bool
  | [] => true
  | o :: rest =>
    (rest.all fun p => !(o.rect.colliderect p.rect)) && pairwiseClear rest

/-- The obstacle's center is at least `OBSTACLE_SAFE_RADIUS` from both
spawn points. -/
def clearOfSpawns (player_pos enemy_pos : ℤ × ℤ) (o : Obstacle) : Bool :=
  decide (OBSTACLE_SAFE_RADIUS ^ 2 ≤
      distSq (o.rect.centerx, o.rect.centery) player_pos) &&
    decide (OBSTACLE_SAFE_RADIUS ^ 2 ≤
      distSq (o.rect.centerx, o.rect.centery) enemy_pos)

/- ### Derived notions used by the claims -/

/-- The spec's synchronization invariant: the AABB center equals the
rounded authoritative position on both axes. -/
def Synced (t : Tank) : Prop :=
  t.rect.centerx = pyround t.posx ∧ t.rect.centery = pyround t.posy

/-- Run `shoot` at each time of a list in order, counting how many
projectiles were actually created. -/
def Tank.shootSeq (dims : String → ℤ × ℤ) (bullet_speed : ℚ) :
    List ℤ → Tank → Tank × ℕ
  | [], t => (t, 0)
  | n :: rest, t =>
    let s := t.shoot dims n bullet_speed
    let r := Tank.shootSeq dims bullet_speed rest s.1
    (r.1, (if s.2.isSome then 1 else 0) + r.2)

/-- Run `take_hit` a given number of times, collecting the returned
destroyed-flags in order. -/
def Tank.takeHitSeq : ℕ → Tank → Tank × List Bool
  | 0, t => (t, [])
  | n + 1, t =>
    let s := t.take_hit
    let r := Tank.takeHitSeq n s.1
    (r.1, s.2 :: r.2)

/- ### Helper lemmas -/

theorem pyround_intCast (n : ℤ) : pyround (n : ℚ) = n := by
  simp [pyround]

/- ### Claims -/

/-- C9: `facing_of` is total: the zero vector maps to `"up"`, and every
non-zero vector maps to the dominant-axis cardinal — horizontal (sign of
x selecting `"right"`/`"left"`) exactly when `|x| > |y|`, vertical (sign
of y selecting `"down"`/`"up"`) otherwise, including ties. -/
theorem C9_facing (x y : ℚ) (h : ¬(x = 0 ∧ y = 0)) :
    orientation_from_vector 0 0 = "up" ∧
    orientation_from_vector x y =
      (if |y| < |x| then (if 0 < x then "right" else "left")
       else (if 0 < y then "down" else "up")) := by
  constructor
  · simp [orientation_from_vector]
  · have hne : ¬(x ^ 2 + y ^ 2 = 0) := by
      intro h0
      have hx : x ^ 2 = 0 ∧ y ^ 2 = 0 :=
        (add_eq_zero_iff_of_nonneg (sq_nonneg x) (sq_nonneg y)).mp h0
      exact h ⟨pow_eq_zero_iff two_ne_zero |>.mp hx.1,
        pow_eq_zero_iff two_ne_zero |>.mp hx.2⟩
    simp [orientation_from_vector, hne]

/-- Witness for C9 at the concrete non-zero vector (3, -4). -/
theorem C9_facing_witness :
    ¬((3 : ℚ) = 0 ∧ (-4 : ℚ) = 0) ∧
      (orientation_from_vector 0 0 = "up" ∧
        orientation_from_vector 3 (-4) =
          (if |(-4 : ℚ)| < |(3 : ℚ)| then (if (0 : ℚ) < 3 then "right" else "left")
           else (if (0 : ℚ) < -4 then "down" else "up"))) :=
  ⟨by norm_num, C9_facing 3 (-4) (by norm_num)⟩

/-- C10: a freshly constructed unit has `_last_shot = 0`, so `can_fire`
is false at every time strictly before `reload_ms`: a new unit cannot
fire during the first reload interval of clock time. -/
theorem C10_fresh_cannot_fire (w h cx cy : ℤ) (speed : ℚ) (pf : Rect)
    (health reload_ms now_ms : ℤ) (hnow : now_ms < reload_ms) :
    (Tank.init w h cx cy speed pf health reload_ms).can_fire now_ms = false := by
  simp [Tank.init, Tank.can_fire]
  omega

/-- Witness for C10: the game's fresh tank cannot fire at `now_ms = 449`. -/
theorem C10_fresh_cannot_fire_witness :
    (449 : ℤ) < 450 ∧
      (Tank.init 52 56 300 240 140 (Rect.mk 48 48 544 384) 4 450).can_fire 449 =
        false :=
  ⟨by norm_num,
    C10_fresh_cannot_fire 52 56 300 240 140 (Rect.mk 48 48 544 384) 4 450 449
      (by norm_num)⟩

/-- C7: one `update` advances the projectile's float position by exactly
`direction * speed * dt`, resyncs the AABB to the rounded position, and
flags the projectile expired exactly when the new AABB no longer
intersects the arena rectangle. -/
theorem C7_bullet_update (b : Bullet) (dt : ℚ) :
    (b.update dt).1.posx = b.posx + b.dirx * b.speed * dt ∧
    (b.update dt).1.posy = b.posy + b.diry * b.speed * dt ∧
    (b.update dt).1.rect =
      b.rect.setCenter (pyround (b.posx + b.dirx * b.speed * dt))
        (pyround (b.posy + b.diry * b.speed * dt)) ∧
    ((b.update dt).2 = true ↔
      b.playfield.colliderect (b.update dt).1.rect = false) := by
  refine ⟨rfl, rfl, rfl, ?_⟩
  simp [Bullet.update]

/-- C6: `shoot` before the reload interval has elapsed is a no-op (no
projectile, no state change); at or after it, exactly one projectile is
created and `_last_shot` is set to `now_ms` (no other field changes). -/
theorem C6_shoot_reload_gate (t : Tank) (dims : String → ℤ × ℤ) (now_ms : ℤ)
    (bullet_speed : ℚ) :
    (now_ms - t.last_shot < t.reload_ms →
      t.shoot dims now_ms bullet_speed = (t, none)) ∧
    (t.reload_ms ≤ now_ms - t.last_shot →
      (t.shoot dims now_ms bullet_speed).2.isSome = true ∧
        (t.shoot dims now_ms bullet_speed).1 = { t with last_shot := now_ms }) := by
  constructor
  · intro h
    have hc : t.can_fire now_ms = false := by
      simp [Tank.can_fire]; omega
    simp [Tank.shoot, hc]
  · intro h
    have hc : t.can_fire now_ms = true := by
      simp [Tank.can_fire]; omega
    simp [Tank.shoot, hc]

/-- Witness for C6: the fresh tank at `now_ms = 100` (still reloading,
no-op) and at `now_ms = 450` (fires and records the shot time). -/
theorem C6_shoot_reload_gate_witness :
    ((100 : ℤ) - (Tank.init 52 56 300 240 140 (Rect.mk 48 48 544 384) 4 450).last_shot <
        (Tank.init 52 56 300 240 140 (Rect.mk 48 48 544 384) 4 450).reload_ms ∧
      (Tank.init 52 56 300 240 140 (Rect.mk 48 48 544 384) 4 450).shoot
          (fun _ => (20, 20)) 100 360 =
        (Tank.init 52 56 300 240 140 (Rect.mk 48 48 544 384) 4 450, none)) ∧
    ((Tank.init 52 56 300 240 140 (Rect.mk 48 48 544 384) 4 450).shoot
          (fun _ => (20, 20)) 450 360).1 =
      { Tank.init 52 56 300 240 140 (Rect.mk 48 48 544 384) 4 450 with
          last_shot := 450 } := by
  refine ⟨⟨?_, ?_⟩, ?_⟩
  · simp [Tank.init]
  · exact (C6_shoot_reload_gate _ (fun _ => (20, 20)) 100 360).1 (by simp [Tank.init])
  · exact ((C6_shoot_reload_gate _ (fun _ => (20, 20)) 450 360).2 (by simp [Tank.init])).2

/-- C4 (code bug): `move` with a negative `dt` is not treated as a no-op;
the displacement `direction * speed * dt` is applied as-is, moving the
unit backwards.  Here a fresh tank at x = 300 facing the positive x
direction with `speed = 140` and `dt = -1` ends at x = 160. -/
theorem C4_negative_dt_displaces :
    (Tank.init 52 56 300 240 140 (Rect.mk 48 48 544 384) 4 450).posx = 300 ∧
    ((Tank.init 52 56 300 240 140 (Rect.mk 48 48 544 384) 4 450).move
        (1, 0) (-1) []).posx = 160 ∧
    ((Tank.init 52 56 300 240 140 (Rect.mk 48 48 544 384) 4 450).move
        (1, 0) (-1) []).rect.centerx = 160 := by
  refine ⟨by norm_num [Tank.init, Rect.setCenter, Rect.centerx], ?_, ?_⟩ <;>
    norm_num [Tank.move, Tank.orient, Tank.moveResolved, Tank.moveClamped,
      Tank.init, Tank.applyDisplacement, Tank.clampPlayfield, Tank.resolvePass,
      Rect.setCenter, Rect.centerx, Rect.centery, Rect.containsR, Rect.right,
      Rect.bottom, orientation_from_vector, pyround]

/-- Counterexample to C2: a diagonal move (normalized direction
(4/5, 3/5), speed 10, dt 1) into an overlapping tank blocker triggers the
horizontal slide fallback, which resets the float y position to its
pre-move value but leaves the AABB's y center at the displaced value:
after `move` returns, `rect.centery = 246` while `round(posy) = 240`. -/
theorem C2_counterexample :
    (((Tank.init 52 56 100 240 10 (Rect.mk 48 48 544 384) 4 450).move
        (4/5, 3/5) 1 [Blocker.tank (Rect.mk 124 212 52 56)]).rect.centery = 246) ∧
    (pyround ((Tank.init 52 56 100 240 10 (Rect.mk 48 48 544 384) 4 450).move
        (4/5, 3/5) 1 [Blocker.tank (Rect.mk 124 212 52 56)]).posy = 240) := by
  constructor <;>
    norm_num [Tank.move, Tank.orient, Tank.moveResolved, Tank.moveClamped,
      Tank.init, Tank.applyDisplacement, Tank.clampPlayfield, Tank.resolvePass,
      Tank.resolveStep, Tank.resolveTank, Tank.resolveObstacle, Tank.slideLoop,
      Tank.slideInnerX, Tank.slideInnerY, Tank.slideStepX, Tank.slideStepY,
      Rect.setCenter, Rect.setCenterx,
      Rect.setCentery, Rect.setLeft, Rect.setRight, Rect.setTop, Rect.setBottom,
      Rect.centerx, Rect.centery, Rect.containsR, Rect.colliderect, Rect.right,
      Rect.bottom, orientation_from_vector, pyround, Blocker.rect,
      TANK_COLLISION_THRESHOLD, COLLISION_PUSH_DISTANCE]

/-- Counterexample to C3: a unit whose AABB starts inside the arena moves
up into an overlapping obstacle; the flush-snap resolution sets the
unit's bottom edge to the obstacle's top edge, pushing the AABB above the
arena (top = 38 < 48), and no pass re-clamps it. -/
theorem C3_counterexample :
    ((Rect.mk 48 48 544 384).containsR
        (Tank.init 52 56 100 86 2 (Rect.mk 48 48 544 384) 4 450).rect = true) ∧
    ((Rect.mk 48 48 544 384).containsR
        ((Tank.init 52 56 100 86 2 (Rect.mk 48 48 544 384) 4 450).move
          (0, -1) 1 [Blocker.obstacle (Rect.mk 50 94 100 32)]).rect = false) := by
  constructor
  · decide
  · norm_num [Tank.move, Tank.orient, Tank.moveResolved, Tank.moveClamped,
      Tank.init, Tank.applyDisplacement, Tank.clampPlayfield, Tank.resolvePass,
      Tank.resolveStep, Tank.resolveTank, Tank.resolveObstacle, Tank.slideLoop,
      Tank.slideInnerX, Tank.slideInnerY, Tank.slideStepX, Tank.slideStepY,
      Rect.setCenter, Rect.setCenterx,
      Rect.setCentery, Rect.setLeft, Rect.setRight, Rect.setTop, Rect.setBottom,
      Rect.centerx, Rect.centery, Rect.containsR, Rect.colliderect, Rect.right,
      Rect.bottom, orientation_from_vector, pyround, Blocker.rect,
      TANK_COLLISION_THRESHOLD, COLLISION_PUSH_DISTANCE]

theorem Rect.setCenter_centerx (r : Rect) (cx cy : ℤ) :
    (r.setCenter cx cy).centerx = cx := by
  simp [Rect.setCenter, Rect.centerx]

theorem Rect.setCenter_centery (r : Rect) (cx cy : ℤ) :
    (r.setCenter cx cy).centery = cy := by
  simp [Rect.setCenter, Rect.centery]

theorem Rect.setCenterx_centerx (r : Rect) (cx : ℤ) :
    (r.setCenterx cx).centerx = cx := by
  simp [Rect.setCenterx, Rect.centerx]

theorem Rect.setCenterx_centery (r : Rect) (cx : ℤ) :
    (r.setCenterx cx).centery = r.centery := by
  simp [Rect.setCenterx, Rect.centery]

theorem Rect.setCentery_centery (r : Rect) (cy : ℤ) :
    (r.setCentery cy).centery = cy := by
  simp [Rect.setCentery, Rect.centery]

theorem Rect.setCentery_centerx (r : Rect) (cy : ℤ) :
    (r.setCentery cy).centerx = r.centerx := by
  simp [Rect.setCentery, Rect.centerx]

theorem Rect.setLeft_centery (r : Rect) (v : ℤ) :
    (r.setLeft v).centery = r.centery := by
  simp [Rect.setLeft, Rect.centery]

theorem Rect.setRight_centery (r : Rect) (v : ℤ) :
    (r.setRight v).centery = r.centery := by
  simp [Rect.setRight, Rect.centery]

theorem Rect.setTop_centerx (r : Rect) (v : ℤ) :
    (r.setTop v).centerx = r.centerx := by
  simp [Rect.setTop, Rect.centerx]

theorem Rect.setBottom_centerx (r : Rect) (v : ℤ) :
    (r.setBottom v).centerx = r.centerx := by
  simp [Rect.setBottom, Rect.centerx]

/-- `Synced` holds unconditionally right after the displacement resync. -/
theorem synced_applyDisplacement (t : Tank) (dx dy : ℚ) :
    Synced (t.applyDisplacement dx dy) := by
  constructor <;>
    simp [Tank.applyDisplacement, Synced, Rect.setCenter_centerx,
      Rect.setCenter_centery]

theorem synced_clampPlayfield (t : Tank) (hs : Synced t) :
    Synced t.clampPlayfield := by
  unfold Tank.clampPlayfield
  split
  · exact hs
  · constructor <;> simp [pyround_intCast]

theorem synced_resolveTank (t : Tank) (br : Rect) (hs : Synced t) :
    Synced (t.resolveTank br) := by
  simp only [Tank.resolveTank]
  split
  · constructor <;> simp [Rect.setCenter_centerx, Rect.setCenter_centery]
  · exact hs

theorem synced_resolveObstacle (t : Tank) (br : Rect) (hs : Synced t) :
    Synced (t.resolveObstacle br) := by
  simp only [Tank.resolveObstacle]
  split
  · split
    · constructor
      · simp [pyround_intCast]
      · split <;>
          simpa [Rect.setLeft_centery, Rect.setRight_centery] using hs.2
    · constructor
      · split <;>
          simpa [Rect.setTop_centerx, Rect.setBottom_centerx] using hs.1
      · simp [pyround_intCast]
  · exact hs

theorem synced_resolveStep (st : Tank × Bool) (b : Blocker) (hs : Synced st.1) :
    Synced (Tank.resolveStep st b).1 := by
  unfold Tank.resolveStep
  split
  · match b with
    | .tank br => exact synced_resolveTank _ _ hs
    | .obstacle br => exact synced_resolveObstacle _ _ hs
  · exact hs

theorem synced_resolveFold (bl : List Blocker) :
    ∀ st : Tank × Bool, Synced st.1 → Synced ((bl.foldl Tank.resolveStep st).1) := by
  induction bl with
  | nil => intro st hs; simpa using hs
  | cons b rest ih =>
    intro st hs
    simpa [List.foldl_cons] using ih _ (synced_resolveStep st b hs)

/-- The slide loop does nothing when the current state collides with no
blocker of the iterated list. -/
theorem slideLoop_no_collide (ox oy dx dy : ℚ) (blockers : List Blocker) :
    ∀ (l : List Blocker) (t : Tank),
      (∀ b ∈ l, t.rect.colliderect b.rect = false) →
      Tank.slideLoop ox oy dx dy blockers l t = t := by
  intro l
  induction l with
  | nil => intro t _; rfl
  | cons b rest ih =>
    intro t hnc
    have hb : t.rect.colliderect b.rect = false := hnc b (by simp)
    rw [Tank.slideLoop, hb]
    simp only [Bool.false_eq_true, if_false]
    exact ih t (fun b2 hb2 => hnc b2 (by simp [hb2]))

/-- The push-apart pass does nothing when the incoming state collides
with no blocker. -/
theorem resolveFold_no_collide :
    ∀ (bl : List Blocker) (t : Tank) (c : Bool),
      (∀ b ∈ bl, t.rect.colliderect b.rect = false) →
      bl.foldl Tank.resolveStep (t, c) = (t, c) := by
  intro bl
  induction bl with
  | nil => intro t c _; rfl
  | cons b rest ih =>
    intro t c hnc
    have hb : t.rect.colliderect b.rect = false := hnc b (by simp)
    simp only [List.foldl_cons, Tank.resolveStep, hb, Bool.false_eq_true, if_false]
    exact ih t c (fun b2 hb2 => hnc b2 (by simp [hb2]))

theorem synced_moveResolved (t : Tank) (mv : ℚ × ℚ) (dt : ℚ)
    (blockers : List Blocker) : Synced (t.moveResolved mv dt blockers).1 := by
  unfold Tank.moveResolved Tank.resolvePass
  exact synced_resolveFold blockers _
    (synced_clampPlayfield _ (synced_applyDisplacement _ _ _))

/-- C2 (amended): the synchronization invariant `AABB.center =
round(position)` is preserved by every `shoot` call, and holds after
every `move` call in which no blocker still overlaps the unit when the
push-apart pass completes (so the slide fallback does nothing); in
particular after any `move` with an empty blocker set.  (The slide
fallback itself can leave the coordinate perpendicular to the slide axis
stale, see the counterexample.) -/
theorem C2_amended_sync (t : Tank) (mv : ℚ × ℚ) (dt : ℚ)
    (blockers : List Blocker) (dims : String → ℤ × ℤ) (now_ms : ℤ)
    (bullet_speed : ℚ) (hs : Synced t)
    (hres : ∀ b ∈ blockers,
      (t.moveResolved mv dt blockers).1.rect.colliderect b.rect = false) :
    Synced (t.shoot dims now_ms bullet_speed).1 ∧
      Synced (t.move mv dt blockers) := by
  constructor
  · unfold Tank.shoot
    split
    · exact hs
    · exact hs
  · simp only [Tank.move]
    split
    · simp only [Tank.orient]
      split
      · exact hs
      · exact hs
    · have hsync : Synced (t.moveResolved mv dt blockers).1 :=
        synced_moveResolved t mv dt blockers
      split
      · rw [slideLoop_no_collide _ _ _ _ _ _ _ hres]
        exact hsync
      · exact hsync

/-- Witness for C2 (amended): a fresh synced tank moving right for one
second with no blockers. -/
theorem C2_amended_sync_witness :
    (Synced (Tank.init 52 56 300 240 140 (Rect.mk 48 48 544 384) 4 450) ∧
      (∀ b ∈ ([] : List Blocker),
        ((Tank.init 52 56 300 240 140 (Rect.mk 48 48 544 384) 4 450).moveResolved
            (1, 0) 1 []).1.rect.colliderect b.rect = false)) ∧
    Synced (((Tank.init 52 56 300 240 140 (Rect.mk 48 48 544 384) 4 450).shoot
        (fun _ => (20, 20)) 500 360).1) ∧
    Synced ((Tank.init 52 56 300 240 140 (Rect.mk 48 48 544 384) 4 450).move
        (1, 0) 1 []) := by
  have h1 : Synced (Tank.init 52 56 300 240 140 (Rect.mk 48 48 544 384) 4 450) := by
    constructor <;> simp [Tank.init, pyround_intCast]
  have h2 : ∀ b ∈ ([] : List Blocker),
      ((Tank.init 52 56 300 240 140 (Rect.mk 48 48 544 384) 4 450).moveResolved
          (1, 0) 1 []).1.rect.colliderect b.rect = false := by
    intro b hb
    exact absurd hb (List.not_mem_nil b)
  exact ⟨⟨h1, h2⟩,
    C2_amended_sync (Tank.init 52 56 300 240 140 (Rect.mk 48 48 544 384) 4 450)
      (1, 0) 1 [] (fun _ => (20, 20)) 500 360 h1 h2⟩

theorem containsR_w_le (a b : Rect) (h : a.containsR b = true) :
    b.w ≤ a.w ∧ b.h ≤ a.h := by
  simp only [Rect.containsR, Rect.right, Rect.bottom, Bool.and_eq_true,
    decide_eq_true_eq] at h
  omega

theorem containsR_clampTo (a b : Rect) (hw0 : 0 < a.w) (hh0 : 0 < a.h)
    (hw : a.w ≤ b.w) (hh : a.h ≤ b.h) : b.containsR (a.clampTo b) = true := by
  simp only [Rect.clampTo, Rect.containsR, Rect.right, Rect.bottom,
    Bool.and_eq_true, decide_eq_true_eq]
  split_ifs <;> omega

theorem orient_rect (t : Tank) (mv : ℚ × ℚ) : (t.orient mv).rect = t.rect := by
  simp only [Tank.orient]
  split <;> rfl

theorem orient_playfield (t : Tank) (mv : ℚ × ℚ) :
    (t.orient mv).playfield = t.playfield := by
  simp only [Tank.orient]
  split <;> rfl

theorem orient_speed (t : Tank) (mv : ℚ × ℚ) : (t.orient mv).speed = t.speed := by
  simp only [Tank.orient]
  split <;> rfl

theorem orient_posx (t : Tank) (mv : ℚ × ℚ) : (t.orient mv).posx = t.posx := by
  simp only [Tank.orient]
  split <;> rfl

theorem orient_posy (t : Tank) (mv : ℚ × ℚ) : (t.orient mv).posy = t.posy := by
  simp only [Tank.orient]
  split <;> rfl

theorem applyDisplacement_rect_w (t : Tank) (dx dy : ℚ) :
    (t.applyDisplacement dx dy).rect.w = t.rect.w := by
  simp [Tank.applyDisplacement, Rect.setCenter]

theorem applyDisplacement_rect_h (t : Tank) (dx dy : ℚ) :
    (t.applyDisplacement dx dy).rect.h = t.rect.h := by
  simp [Tank.applyDisplacement, Rect.setCenter]

theorem applyDisplacement_playfield (t : Tank) (dx dy : ℚ) :
    (t.applyDisplacement dx dy).playfield = t.playfield := by
  simp [Tank.applyDisplacement]

theorem containsR_clampPlayfield (t : Tank) (hw0 : 0 < t.rect.w)
    (hh0 : 0 < t.rect.h) (hw : t.rect.w ≤ t.playfield.w)
    (hh : t.rect.h ≤ t.playfield.h) :
    t.playfield.containsR t.clampPlayfield.rect = true := by
  simp only [Tank.clampPlayfield]
  split
  · assumption
  · exact containsR_clampTo _ _ hw0 hh0 hw hh

/-- C3 (amended): a unit whose AABB starts inside the arena also ends
`move` inside the arena provided that no blocker collides with it once
the clamped displacement has been applied (in particular whenever the
blocker set is empty); a colliding blocker's push-apart, flush-snap or
slide resolution can push the AABB outside, see the counterexample. -/
theorem C3_amended_in_bounds (t : Tank) (mv : ℚ × ℚ) (dt : ℚ)
    (blockers : List Blocker) (hw0 : 0 < t.rect.w) (hh0 : 0 < t.rect.h)
    (hin : t.playfield.containsR t.rect = true)
    (hnc : ∀ b ∈ blockers,
      (t.moveClamped mv dt).rect.colliderect b.rect = false) :
    t.playfield.containsR (t.move mv dt blockers).rect = true := by
  have hsz := containsR_w_le _ _ hin
  have hmc : t.playfield.containsR (t.moveClamped mv dt).rect = true := by
    unfold Tank.moveClamped
    have h1 := containsR_clampPlayfield
      ((t.orient mv).applyDisplacement (mv.1 * (t.orient mv).speed * dt)
        (mv.2 * (t.orient mv).speed * dt))
      (by rw [applyDisplacement_rect_w, orient_rect]; exact hw0)
      (by rw [applyDisplacement_rect_h, orient_rect]; exact hh0)
      (by rw [applyDisplacement_rect_w, orient_rect, applyDisplacement_playfield,
        orient_playfield]; exact hsz.1)
      (by rw [applyDisplacement_rect_h, orient_rect, applyDisplacement_playfield,
        orient_playfield]; exact hsz.2)
    rwa [applyDisplacement_playfield, orient_playfield] at h1
  have hpr : t.moveResolved mv dt blockers = (t.moveClamped mv dt, false) := by
    unfold Tank.moveResolved Tank.resolvePass
    exact resolveFold_no_collide blockers _ false hnc
  simp only [Tank.move]
  split
  · rw [orient_rect]; exact hin
  · rw [hpr]
    simp only [Bool.false_eq_true, if_false]
    exact hmc

/-- Witness for C3 (amended): a fresh tank inside the arena moving right
for one second with no blockers. -/
theorem C3_amended_in_bounds_witness :
    ((0 : ℤ) < (Tank.init 52 56 300 240 140 (Rect.mk 48 48 544 384) 4 450).rect.w ∧
      (0 : ℤ) < (Tank.init 52 56 300 240 140 (Rect.mk 48 48 544 384) 4 450).rect.h ∧
      (Rect.mk 48 48 544 384).containsR
        (Tank.init 52 56 300 240 140 (Rect.mk 48 48 544 384) 4 450).rect = true) ∧
    (Rect.mk 48 48 544 384).containsR
      ((Tank.init 52 56 300 240 140 (Rect.mk 48 48 544 384) 4 450).move
        (1, 0) 1 []).rect = true := by
  have hplay : (Tank.init 52 56 300 240 140 (Rect.mk 48 48 544 384) 4 450).playfield =
      Rect.mk 48 48 544 384 := by simp [Tank.init]
  have h0 := C3_amended_in_bounds
    (Tank.init 52 56 300 240 140 (Rect.mk 48 48 544 384) 4 450) (1, 0) 1 []
    (by decide) (by decide) (by rw [hplay]; decide)
    (fun b hb => absurd hb (List.not_mem_nil b))
  rw [hplay] at h0
  exact ⟨⟨by decide, by decide, by decide⟩, h0⟩

theorem colliderect_setRight_flush (r b : Rect) :
    (r.setRight b.left).colliderect b = false := by
  simp [Rect.setRight, Rect.colliderect, Rect.right, Rect.bottom]

theorem colliderect_setLeft_flush (r b : Rect) :
    (r.setLeft b.right).colliderect b = false := by
  simp [Rect.setLeft, Rect.colliderect, Rect.right, Rect.bottom]

theorem colliderect_setBottom_flush (r b : Rect) :
    (r.setBottom b.top).colliderect b = false := by
  simp [Rect.setBottom, Rect.colliderect, Rect.right, Rect.bottom]

theorem colliderect_setTop_flush (r b : Rect) :
    (r.setTop b.bottom).colliderect b = false := by
  simp [Rect.setTop, Rect.colliderect, Rect.right, Rect.bottom]

/-- After the slide pass over the single blocker `b`, the mover no longer
collides with `b` (flush contact does not count as a collision), provided
the intended displacement is non-zero. -/
theorem slideLoop_single_no_collide (ox oy dx dy : ℚ) (b : Blocker) (t2 : Tank)
    (hdisp : ¬(dx = 0 ∧ dy = 0)) :
    (Tank.slideLoop ox oy dx dy [b] [b] t2).rect.colliderect b.rect = false := by
  rw [Tank.slideLoop]
  by_cases hc2 : t2.rect.colliderect b.rect = true
  · rw [if_pos hc2]
    by_cases hxy : |dy| < |dx|
    · rw [if_pos hxy]
      have hdx : dx ≠ 0 := by
        intro h0
        rw [h0, abs_zero] at hxy
        exact absurd (abs_nonneg dy) (not_le.mpr hxy)
      simp only [Tank.slideInnerX, List.foldl_cons, List.foldl_nil, Tank.slideStepX]
      by_cases hc3 : (t2.rect.setCenterx (pyround (ox + dx))).colliderect b.rect = true
      · by_cases hsgn : (0 : ℚ) < dx
        · simp [hc3, hsgn, Tank.slideLoop, colliderect_setRight_flush]
        · simp [hc3, hsgn, Tank.slideLoop, colliderect_setLeft_flush]
      · simp [hc3]
    · rw [if_neg hxy]
      have hdy : dy ≠ 0 := by
        intro h0
        apply hdisp
        rw [h0, abs_zero] at hxy
        exact ⟨abs_eq_zero.mp (le_antisymm (not_lt.mp hxy) (abs_nonneg dx)), h0⟩
      simp only [Tank.slideInnerY, List.foldl_cons, List.foldl_nil, Tank.slideStepY]
      by_cases hc3 : (t2.rect.setCentery (pyround (oy + dy))).colliderect b.rect = true
      · by_cases hsgn : (0 : ℚ) < dy
        · simp [hc3, hsgn, Tank.slideLoop, colliderect_setBottom_flush]
        · simp [hc3, hsgn, Tank.slideLoop, colliderect_setTop_flush]
      · simp [hc3]
  · rw [if_neg hc2]
    rw [Tank.slideLoop]
    simpa using hc2

theorem resolveTank_size (t : Tank) (br : Rect) :
    (t.resolveTank br).rect.w = t.rect.w ∧ (t.resolveTank br).rect.h = t.rect.h := by
  simp only [Tank.resolveTank]
  split
  · constructor <;>
      (simp only [Rect.setCenter]; split <;> first | rfl | (split <;> rfl))
  · exact ⟨rfl, rfl⟩

theorem resolveObstacle_size (t : Tank) (br : Rect) :
    (t.resolveObstacle br).rect.w = t.rect.w ∧
      (t.resolveObstacle br).rect.h = t.rect.h := by
  simp only [Tank.resolveObstacle]
  split
  · split <;> constructor <;>
      (simp only [Rect.setLeft, Rect.setRight, Rect.setTop, Rect.setBottom];
        split <;> rfl)
  · exact ⟨rfl, rfl⟩

theorem resolveStep_size (st : Tank × Bool) (b : Blocker) :
    (Tank.resolveStep st b).1.rect.w = st.1.rect.w ∧
      (Tank.resolveStep st b).1.rect.h = st.1.rect.h := by
  simp only [Tank.resolveStep]
  split
  · match b with
    | .tank br => exact resolveTank_size st.1 br
    | .obstacle br => exact resolveObstacle_size st.1 br
  · exact ⟨rfl, rfl⟩

theorem resolveFold_size (bl : List Blocker) :
    ∀ st : Tank × Bool,
      (bl.foldl Tank.resolveStep st).1.rect.w = st.1.rect.w ∧
        (bl.foldl Tank.resolveStep st).1.rect.h = st.1.rect.h := by
  induction bl with
  | nil => intro st; exact ⟨rfl, rfl⟩
  | cons b rest ih =>
    intro st
    have h1 := resolveStep_size st b
    have h2 := ih (Tank.resolveStep st b)
    simp only [List.foldl_cons]
    omega

theorem slideStepX_size (dx : ℚ) (st : Tank × Bool) (b2 : Blocker) :
    (Tank.slideStepX dx st b2).1.rect.w = st.1.rect.w ∧
      (Tank.slideStepX dx st b2).1.rect.h = st.1.rect.h := by
  simp only [Tank.slideStepX]
  split
  · constructor <;>
      (simp only [Rect.setLeft, Rect.setRight]; split <;> rfl)
  · exact ⟨rfl, rfl⟩

theorem slideStepY_size (dy : ℚ) (st : Tank × Bool) (b2 : Blocker) :
    (Tank.slideStepY dy st b2).1.rect.w = st.1.rect.w ∧
      (Tank.slideStepY dy st b2).1.rect.h = st.1.rect.h := by
  simp only [Tank.slideStepY]
  split
  · constructor <;>
      (simp only [Rect.setTop, Rect.setBottom]; split <;> rfl)
  · exact ⟨rfl, rfl⟩

theorem slideInnerX_size (dx : ℚ) (blockers : List Blocker) :
    ∀ st : Tank × Bool,
      (blockers.foldl (Tank.slideStepX dx) st).1.rect.w = st.1.rect.w ∧
        (blockers.foldl (Tank.slideStepX dx) st).1.rect.h = st.1.rect.h := by
  induction blockers with
  | nil => intro st; exact ⟨rfl, rfl⟩
  | cons b rest ih =>
    intro st
    have h1 := slideStepX_size dx st b
    have h2 := ih (Tank.slideStepX dx st b)
    simp only [List.foldl_cons]
    omega

theorem slideInnerY_size (dy : ℚ) (blockers : List Blocker) :
    ∀ st : Tank × Bool,
      (blockers.foldl (Tank.slideStepY dy) st).1.rect.w = st.1.rect.w ∧
        (blockers.foldl (Tank.slideStepY dy) st).1.rect.h = st.1.rect.h := by
  induction blockers with
  | nil => intro st; exact ⟨rfl, rfl⟩
  | cons b rest ih =>
    intro st
    have h1 := slideStepY_size dy st b
    have h2 := ih (Tank.slideStepY dy st b)
    simp only [List.foldl_cons]
    omega

theorem slideLoop_size (ox oy dx dy : ℚ) (blockers : List Blocker) :
    ∀ (l : List Blocker) (t : Tank),
      (Tank.slideLoop ox oy dx dy blockers l t).rect.w = t.rect.w ∧
        (Tank.slideLoop ox oy dx dy blockers l t).rect.h = t.rect.h := by
  intro l
  induction l with
  | nil => intro t; exact ⟨rfl, rfl⟩
  | cons b rest ih =>
    intro t
    rw [Tank.slideLoop]
    by_cases hc : t.rect.colliderect b.rect = true
    · rw [if_pos hc]
      by_cases hxy : |dy| < |dx|
      · rw [if_pos hxy]
        simp only [Tank.slideInnerX]
        split
        · exact ⟨by rw [(ih _).1, (slideInnerX_size dx blockers _).1]; rfl,
            by rw [(ih _).2, (slideInnerX_size dx blockers _).2]; rfl⟩
        · exact ⟨by rw [(slideInnerX_size dx blockers _).1]; rfl,
            by rw [(slideInnerX_size dx blockers _).2]; rfl⟩
      · rw [if_neg hxy]
        simp only [Tank.slideInnerY]
        split
        · exact ⟨by rw [(ih _).1, (slideInnerY_size dy blockers _).1]; rfl,
            by rw [(ih _).2, (slideInnerY_size dy blockers _).2]; rfl⟩
        · exact ⟨by rw [(slideInnerY_size dy blockers _).1]; rfl,
            by rw [(slideInnerY_size dy blockers _).2]; rfl⟩
    · rw [if_neg hc]
      exact ih t

theorem clampTo_size (a b : Rect) :
    (a.clampTo b).w = a.w ∧ (a.clampTo b).h = a.h := by
  simp [Rect.clampTo]

theorem clampPlayfield_size (t : Tank) :
    t.clampPlayfield.rect.w = t.rect.w ∧ t.clampPlayfield.rect.h = t.rect.h := by
  simp only [Tank.clampPlayfield]
  split
  · exact ⟨rfl, rfl⟩
  · exact clampTo_size t.rect t.playfield

theorem moveClamped_size (t : Tank) (mv : ℚ × ℚ) (dt : ℚ) :
    (t.moveClamped mv dt).rect.w = t.rect.w ∧
      (t.moveClamped mv dt).rect.h = t.rect.h := by
  unfold Tank.moveClamped
  have h1 := clampPlayfield_size
    ((t.orient mv).applyDisplacement (mv.1 * (t.orient mv).speed * dt)
      (mv.2 * (t.orient mv).speed * dt))
  rw [applyDisplacement_rect_w, applyDisplacement_rect_h, orient_rect] at h1
  exact h1

theorem move_size (t : Tank) (mv : ℚ × ℚ) (dt : ℚ) (blockers : List Blocker) :
    (t.move mv dt blockers).rect.w = t.rect.w ∧
      (t.move mv dt blockers).rect.h = t.rect.h := by
  have hmc := moveClamped_size t mv dt
  have hpr : (t.moveResolved mv dt blockers).1.rect.w = t.rect.w ∧
      (t.moveResolved mv dt blockers).1.rect.h = t.rect.h := by
    unfold Tank.moveResolved Tank.resolvePass
    exact ⟨by rw [(resolveFold_size blockers _).1]; exact hmc.1,
      by rw [(resolveFold_size blockers _).2]; exact hmc.2⟩
  simp only [Tank.move]
  split
  · rw [orient_rect]
    exact ⟨rfl, rfl⟩
  · split
    · have h2 := slideLoop_size (t.orient mv).posx (t.orient mv).posy
        (mv.1 * (t.orient mv).speed * dt) (mv.2 * (t.orient mv).speed * dt)
        blockers blockers (t.moveResolved mv dt blockers).1
      omega
    · exact hpr

/-- With a single blocker, `move` with a non-zero intended displacement
never returns in a state strictly overlapping that blocker: either no
collision happened, or the push-apart/slide pipeline ends with the mover
clear of (or flush against) the blocker. -/
theorem move_single_no_collide (t : Tank) (b : Blocker) (mv : ℚ × ℚ) (dt : ℚ)
    (hdisp : ¬(mv.1 * t.speed * dt = 0 ∧ mv.2 * t.speed * dt = 0)) :
    (t.move mv dt [b]).rect.colliderect b.rect = false := by
  simp only [Tank.move, orient_speed]
  rw [if_neg hdisp]
  by_cases hc : (t.moveClamped mv dt).rect.colliderect b.rect = true
  · rcases b with br | br
    · have hpr : t.moveResolved mv dt [Blocker.tank br] =
          ((t.moveClamped mv dt).resolveTank br, true) := by
        unfold Tank.moveResolved Tank.resolvePass
        simp only [List.foldl_cons, List.foldl_nil, Tank.resolveStep, hc, if_true]
      rw [hpr]
      exact slideLoop_single_no_collide _ _ _ _ (Blocker.tank br) _ hdisp
    · have hpr : t.moveResolved mv dt [Blocker.obstacle br] =
          ((t.moveClamped mv dt).resolveObstacle br, true) := by
        unfold Tank.moveResolved Tank.resolvePass
        simp only [List.foldl_cons, List.foldl_nil, Tank.resolveStep, hc, if_true]
      rw [hpr]
      exact slideLoop_single_no_collide _ _ _ _ (Blocker.obstacle br) _ hdisp
  · have hpr : t.moveResolved mv dt [b] = (t.moveClamped mv dt, false) := by
      unfold Tank.moveResolved Tank.resolvePass
      simp only [List.foldl_cons, List.foldl_nil, Tank.resolveStep, hc,
        Bool.false_eq_true, if_false]
    rw [hpr]
    simpa using hc

set_option maxHeartbeats 1600000 in
/-- C5 (amended): two tank-sized units (52 × 56 AABBs) whose AABBs
overlap with center deltas below the collision threshold on both axes:
a `move` call on one of them, with the other unit as the sole blocker and
a non-zero intended displacement, strictly increases the squared
center-to-center distance (a zero displacement skips the collision pass
entirely and leaves the distance unchanged, see the counterexample). -/
theorem C5_amended_separation (t : Tank) (br : Rect) (mv : ℚ × ℚ) (dt : ℚ)
    (hw : t.rect.w = 52) (hh : t.rect.h = 56) (hbw : br.w = 52) (hbh : br.h = 56)
    (hov : t.rect.colliderect br = true)
    (hdx : |t.rect.centerx - br.centerx| < TANK_COLLISION_THRESHOLD)
    (hdy : |t.rect.centery - br.centery| < TANK_COLLISION_THRESHOLD)
    (hdisp : ¬(mv.1 * t.speed * dt = 0 ∧ mv.2 * t.speed * dt = 0)) :
    (t.rect.centerx - br.centerx) ^ 2 + (t.rect.centery - br.centery) ^ 2 <
      ((t.move mv dt [Blocker.tank br]).rect.centerx - br.centerx) ^ 2 +
        ((t.move mv dt [Blocker.tank br]).rect.centery - br.centery) ^ 2 := by
  have hnc := move_single_no_collide t (Blocker.tank br) mv dt hdisp
  have hsz := move_size t mv dt [Blocker.tank br]
  obtain ⟨T, hT⟩ : ∃ x, x = t.move mv dt [Blocker.tank br] := ⟨_, rfl⟩
  rw [← hT] at hnc hsz ⊢
  have hW : T.rect.w = 52 := by rw [hsz.1, hw]
  have hH : T.rect.h = 56 := by rw [hsz.2, hh]
  simp only [TANK_COLLISION_THRESHOLD] at hdx hdy
  rw [abs_lt] at hdx hdy
  have e1 : T.rect.centerx - br.centerx = T.rect.left - br.left := by
    simp only [Rect.centerx]; omega
  have e2 : T.rect.centery - br.centery = T.rect.top - br.top := by
    simp only [Rect.centery]; omega
  have e3 : t.rect.centerx - br.centerx = t.rect.left - br.left := by
    simp only [Rect.centerx]; omega
  have e4 : t.rect.centery - br.centery = t.rect.top - br.top := by
    simp only [Rect.centery]; omega
  rw [e3] at hdx
  rw [e4] at hdy
  rw [e1, e2, e3, e4]
  have hnc2 : T.rect.left - br.left ≤ -52 ∨ 52 ≤ T.rect.left - br.left ∨
      T.rect.top - br.top ≤ -56 ∨ 56 ≤ T.rect.top - br.top := by
    simp only [Rect.colliderect, Rect.right, Rect.bottom, Blocker.rect,
      Bool.and_eq_false_iff, decide_eq_false_iff_not, not_lt] at hnc
    omega
  have hb1 : t.rect.left - br.left ≤ 34 ∧ -34 ≤ t.rect.left - br.left ∧
      t.rect.top - br.top ≤ 34 ∧ -34 ≤ t.rect.top - br.top := by omega
  have ha2 : (t.rect.left - br.left) ^ 2 ≤ 1156 := by nlinarith [hb1.1, hb1.2.1]
  have ha3 : (t.rect.top - br.top) ^ 2 ≤ 1156 := by nlinarith [hb1.2.2.1, hb1.2.2.2]
  have hfin : 2704 ≤ (T.rect.left - br.left) ^ 2 + (T.rect.top - br.top) ^ 2 := by
    rcases hnc2 with h | h | h | h
    · nlinarith [sq_nonneg (T.rect.top - br.top),
        mul_nonneg (by linarith : (0:ℤ) ≤ -(T.rect.left - br.left) - 52)
          (by linarith : (0:ℤ) ≤ -(T.rect.left - br.left) + 52)]
    · nlinarith [sq_nonneg (T.rect.top - br.top),
        mul_nonneg (by linarith : (0:ℤ) ≤ (T.rect.left - br.left) - 52)
          (by linarith : (0:ℤ) ≤ (T.rect.left - br.left) + 52)]
    · nlinarith [sq_nonneg (T.rect.left - br.left),
        mul_nonneg (by linarith : (0:ℤ) ≤ -(T.rect.top - br.top) - 56)
          (by linarith : (0:ℤ) ≤ -(T.rect.top - br.top) + 56)]
    · nlinarith [sq_nonneg (T.rect.left - br.left),
        mul_nonneg (by linarith : (0:ℤ) ≤ (T.rect.top - br.top) - 56)
          (by linarith : (0:ℤ) ≤ (T.rect.top - br.top) + 56)]
  linarith

/-- Witness for C5 (amended): overlapping 52 × 56 tanks with center delta
(-34, 0), the mover heading further left with speed 10 for one second. -/
theorem C5_amended_separation_witness :
    ((Tank.init 52 56 100 240 10 (Rect.mk 48 48 544 384) 4 450).rect.colliderect
        (Rect.mk 108 212 52 56) = true ∧
      |(Tank.init 52 56 100 240 10 (Rect.mk 48 48 544 384) 4 450).rect.centerx -
          (Rect.mk 108 212 52 56).centerx| < TANK_COLLISION_THRESHOLD ∧
      |(Tank.init 52 56 100 240 10 (Rect.mk 48 48 544 384) 4 450).rect.centery -
          (Rect.mk 108 212 52 56).centery| < TANK_COLLISION_THRESHOLD) ∧
    ((Tank.init 52 56 100 240 10 (Rect.mk 48 48 544 384) 4 450).rect.centerx -
          (Rect.mk 108 212 52 56).centerx) ^ 2 +
        ((Tank.init 52 56 100 240 10 (Rect.mk 48 48 544 384) 4 450).rect.centery -
          (Rect.mk 108 212 52 56).centery) ^ 2 <
      (((Tank.init 52 56 100 240 10 (Rect.mk 48 48 544 384) 4 450).move (-1, 0) 1
              [Blocker.tank (Rect.mk 108 212 52 56)]).rect.centerx -
          (Rect.mk 108 212 52 56).centerx) ^ 2 +
        (((Tank.init 52 56 100 240 10 (Rect.mk 48 48 544 384) 4 450).move (-1, 0) 1
              [Blocker.tank (Rect.mk 108 212 52 56)]).rect.centery -
          (Rect.mk 108 212 52 56).centery) ^ 2 := by
  refine ⟨⟨by decide, by decide, by decide⟩, ?_⟩
  exact C5_amended_separation (Tank.init 52 56 100 240 10 (Rect.mk 48 48 544 384) 4 450)
    (Rect.mk 108 212 52 56) (-1, 0) 1 (by decide) (by decide) (by decide) (by decide)
    (by decide) (by decide) (by decide) (by norm_num [Tank.init])

/-- Counterexample to C5: with a zero intent direction the whole
collision pass is skipped, so a `move` call on two overlapping units with
center deltas below the threshold leaves the center-to-center distance
unchanged rather than strictly increasing it. -/
theorem C5_counterexample :
    ((Tank.init 52 56 100 240 10 (Rect.mk 48 48 544 384) 4 450).rect.colliderect
        (Rect.mk 94 222 52 56) = true ∧
      |(Tank.init 52 56 100 240 10 (Rect.mk 48 48 544 384) 4 450).rect.centerx -
          (Rect.mk 94 222 52 56).centerx| < TANK_COLLISION_THRESHOLD ∧
      |(Tank.init 52 56 100 240 10 (Rect.mk 48 48 544 384) 4 450).rect.centery -
          (Rect.mk 94 222 52 56).centery| < TANK_COLLISION_THRESHOLD) ∧
    (Tank.init 52 56 100 240 10 (Rect.mk 48 48 544 384) 4 450).move (0, 0) 1
        [Blocker.tank (Rect.mk 94 222 52 56)] =
      Tank.init 52 56 100 240 10 (Rect.mk 48 48 544 384) 4 450 ∧
    ¬(((Tank.init 52 56 100 240 10 (Rect.mk 48 48 544 384) 4 450).rect.centerx -
            (Rect.mk 94 222 52 56).centerx) ^ 2 +
          ((Tank.init 52 56 100 240 10 (Rect.mk 48 48 544 384) 4 450).rect.centery -
            (Rect.mk 94 222 52 56).centery) ^ 2 <
        (((Tank.init 52 56 100 240 10 (Rect.mk 48 48 544 384) 4 450).move (0, 0) 1
                [Blocker.tank (Rect.mk 94 222 52 56)]).rect.centerx -
            (Rect.mk 94 222 52 56).centerx) ^ 2 +
          (((Tank.init 52 56 100 240 10 (Rect.mk 48 48 544 384) 4 450).move (0, 0) 1
                [Blocker.tank (Rect.mk 94 222 52 56)]).rect.centery -
            (Rect.mk 94 222 52 56).centery) ^ 2) := by
  have hmv : (Tank.init 52 56 100 240 10 (Rect.mk 48 48 544 384) 4 450).move (0, 0) 1
      [Blocker.tank (Rect.mk 94 222 52 56)] =
      Tank.init 52 56 100 240 10 (Rect.mk 48 48 544 384) 4 450 := by
    simp [Tank.move, Tank.orient]
  refine ⟨⟨by decide, by decide, by decide⟩, hmv, ?_⟩
  rw [hmv]
  exact lt_irrefl _

/-- Counterexample to C1: a fresh unit (health 4, reload 450 ms) told to
shoot at `now_ms = 0, 450, 900, 1350` produces only three projectiles,
not four — `_last_shot` starts at 0, so the shot at `now_ms = 0` is
rejected by the reload gate. -/
theorem C1_counterexample :
    (Tank.shootSeq (fun _ => (20, 20)) 360 [0, 450, 900, 1350]
        (Tank.init 52 56 300 240 140 (Rect.mk 48 48 544 384) 4 450)).2 = 3 ∧
    ¬((Tank.shootSeq (fun _ => (20, 20)) 360 [0, 450, 900, 1350]
        (Tank.init 52 56 300 240 140 (Rect.mk 48 48 544 384) 4 450)).2 = 4) := by
  have h : (Tank.shootSeq (fun _ => (20, 20)) 360 [0, 450, 900, 1350]
      (Tank.init 52 56 300 240 140 (Rect.mk 48 48 544 384) 4 450)).2 = 3 := by
    norm_num [Tank.shootSeq, Tank.shoot, Tank.can_fire, Tank.init]
  exact ⟨h, by rw [h]; norm_num⟩

/-- C1 (amended): a fresh unit with `health = 4`, `reload_ms = 450`
shooting at `now_ms = 450, 900, 1350, 1800` (one reload interval apart,
starting one interval after construction) produces four projectiles, and
applying `take_hit` to a fresh target with `health = 4` once per
projectile reduces its health 4 → 0, returning `false` on the first three
calls and `true` on the fourth. -/
theorem C1_amended_run :
    (Tank.shootSeq (fun _ => (20, 20)) 360 [450, 900, 1350, 1800]
        (Tank.init 52 56 300 240 140 (Rect.mk 48 48 544 384) 4 450)).2 = 4 ∧
    (Tank.takeHitSeq 4 (Tank.init 52 56 340 240 140 (Rect.mk 48 48 544 384) 4 450)).2 =
      [false, false, false, true] ∧
    (Tank.takeHitSeq 4
        (Tank.init 52 56 340 240 140 (Rect.mk 48 48 544 384) 4 450)).1.health = 0 := by
  refine ⟨?_, ?_, ?_⟩ <;>
    norm_num [Tank.shootSeq, Tank.shoot, Tank.can_fire, Tank.init,
      Tank.takeHitSeq, Tank.take_hit]

theorem pairwiseClear_cons (o : Obstacle) (rest : List Obstacle) :
    pairwiseClear (o :: rest) =
      ((rest.all fun p => !(o.rect.colliderect p.rect)) && pairwiseClear rest) := rfl

/-- The invariant maintained by the obstacle sampling loop: accepted
obstacles are pairwise disjoint, clear of both spawn points, and never
more numerous than requested. -/
theorem generateObstaclesAux_invariant (ow oh : ℤ) (pp ep : ℤ × ℤ)
    (num maxA : ℕ) :
    ∀ (draws : List (ℤ × ℤ)) (attempts : ℕ) (acc : List Obstacle),
      pairwiseClear acc = true →
      acc.all (clearOfSpawns pp ep) = true →
      acc.length ≤ num →
      pairwiseClear (generateObstaclesAux ow oh pp ep num maxA draws attempts acc) =
          true ∧
        (generateObstaclesAux ow oh pp ep num maxA draws attempts acc).all
            (clearOfSpawns pp ep) = true ∧
        (generateObstaclesAux ow oh pp ep num maxA draws attempts acc).length ≤ num := by
  intro draws
  induction draws with
  | nil => intro attempts acc h1 h2 h3; exact ⟨h1, h2, h3⟩
  | cons d rest ih =>
    intro attempts acc h1 h2 h3
    obtain ⟨x, y⟩ := d
    rw [generateObstaclesAux]
    split
    · rename_i hguard
      apply ih
      all_goals
        by_cases hacc : (!(tooClose (Obstacle.init ow oh x y) x y acc) &&
            is_position_clear (x, y) acc pp ep OBSTACLE_SAFE_RADIUS) = true
      case pos =>
        rw [if_pos hacc]
        have hparts := Bool.and_eq_true_iff.mp hacc
        have htc : tooClose (Obstacle.init ow oh x y) x y acc = false := by
          have := hparts.1
          simpa using this
        rw [pairwiseClear_cons]
        refine Bool.and_eq_true_iff.mpr ⟨?_, h1⟩
        rw [List.all_eq_true]
        intro p hp
        have hall := List.any_eq_false.mp htc p hp
        simp only [Bool.or_eq_true, not_or] at hall
        simp [hall.1]
      case neg =>
        rw [if_neg hacc]
        exact h1
      case pos =>
        rw [if_pos hacc]
        have hparts := Bool.and_eq_true_iff.mp hacc
        have hclear := hparts.2
        rw [List.all_cons]
        refine Bool.and_eq_true_iff.mpr ⟨?_, h2⟩
        unfold is_position_clear at hclear
        split at hclear
        · exact absurd hclear (by simp)
        · split at hclear
          · exact absurd hclear (by simp)
          · rename_i hq1 hq2
            simp only [clearOfSpawns, Rect.setCenter_centerx, Rect.setCenter_centery,
              Obstacle.init, Bool.and_eq_true, decide_eq_true_eq]
            constructor <;> omega
      case neg =>
        rw [if_neg hacc]
        exact h2
      case pos =>
        rw [if_pos hacc]
        simp only [List.length_cons]
        omega
      case neg =>
        rw [if_neg hacc]
        exact h3
    · exact ⟨h1, h2, h3⟩

/-- C8: for every stream of random draws, arena setup returns a set of
obstacles that is pairwise non-overlapping and whose centers are at least
the safe radius away from both spawn points, and never more obstacles
than requested (fewer is possible and is not an error; the loop is a
total function, terminating when the target count or the attempt budget
is reached, or the supplied draw stream ends). -/
theorem C8_obstacle_generation (ow oh : ℤ) (player_pos enemy_pos : ℤ × ℤ)
    (num_obstacles : ℕ) (draws : List (ℤ × ℤ)) :
    pairwiseClear (generate_random_obstacles ow oh player_pos enemy_pos
        num_obstacles draws) = true ∧
    (generate_random_obstacles ow oh player_pos enemy_pos num_obstacles
        draws).all (clearOfSpawns player_pos enemy_pos) = true ∧
    (generate_random_obstacles ow oh player_pos enemy_pos num_obstacles
        draws).length ≤ num_obstacles := by
  unfold generate_random_obstacles
  exact generateObstaclesAux_invariant ow oh player_pos enemy_pos num_obstacles 1000
    draws 0 [] rfl rfl (by simp)
